import Mathlib

/-!
Shallow embedding of the `lab1-webServer` repository: a static file server
(`http_server.go`) and a forwarding HTTP proxy (the second, unnamed Go file).
Pure computations (path cleaning, host splitting, response formatting) are
translated to Lean functions; the effectful connection handlers are translated
to functions producing explicit event traces, with the results of the
fallible I/O calls (file open, stat, dial, upstream write) supplied by oracle
records.  The accept loop with its counting semaphore is a step relation on a
server state.  All Go strings are modelled as Lean strings; Go `len` on a
string is byte length, modelled by `String.utf8ByteSize`.
-/

set_option autoImplicit false

namespace WebServer

/-! ### String helpers mirroring the Go standard library -/

/-- Models `strings.HasPrefix` on character lists. -/
def listPrefix : List Char → List Char → Bool
  | [], _ => true
  | _ :: _, [] => false
  | p :: ps, c :: cs => p = c && listPrefix ps cs

/-- Models `strings.Contains` (substring occurrence) on character lists. -/
def listContainsSub (pat : List Char) : List Char → Bool
  | [] => pat.isEmpty
  | c :: rest => listPrefix pat (c :: rest) || listContainsSub pat rest

/-- Models `strings.Contains s sub`. -/
def strContains (s sub : String) : Bool := listContainsSub sub.toList s.toList

/-- Models `strings.HasPrefix s pre`. -/
def strHasPrefix (s pre : String) : Bool := listPrefix pre.toList s.toList

/-! ### Observable events of a connection handler

Each handler is embedded as a function producing the ordered list of its
externally visible actions: bytes written to the client connection, the
method-dispatch step, file-system calls, the upstream dial / write / relay of
the proxy, and the semaphore release and connection close performed by the
deferred statements. -/

/-- Header maps (`http.Header`) with canonical keys, as produced by
`http.ReadRequest`: a list of key / values pairs. -/
abbrev Header := List (String × List String)

/-- Models `http.Header.Del key` (keys assumed canonical). -/
def headerDel (h : Header) (key : String) : Header :=
  h.filter (fun kv => kv.1 ≠ key)

/-- Models `http.Header.Set key v` (keys assumed canonical). -/
def headerSet (h : Header) (key v : String) : Header :=
  (key, [v]) :: headerDel h key

/-- Models a lookup of a canonical key in a header map. -/
def headerGet (h : Header) (key : String) : Option (List String) :=
  (h.find? (fun kv => kv.1 = key)).map (fun kv => kv.2)

/-- One observable action of a connection handler. -/
inductive Event where
  | write (s : String)
  | dispatch (method : String)
  | openFile (path : String)
  | copyFileToConn
  | mkdirAll (dir : String)
  | createFile (path : String)
  | closeFile
  | dialAttempt (addr : String)
  | writeUpstream (method : String) (target : String) (hdr : Header)
  | relay (bytes : Nat)
  | closeUpstream
  | release
  | closeConn
  deriving DecidableEq

/-- Concatenation of all bytes the trace writes to the client connection. -/
def clientBytes : List Event → String
  | [] => ""
  | .write s :: rest => s ++ clientBytes rest
  | _ :: rest => clientBytes rest

/-- Whether the given event is the semaphore release `<-sem`. -/
def isRelease : Event → Bool
  | .release => true
  | _ => false

/-- Number of semaphore releases in a trace. -/
def countRelease (es : List Event) : Nat := (es.filter isRelease).length

/-- Whether the trace ever reaches the method dispatcher. -/
def hasDispatch (es : List Event) : Bool :=
  es.any (fun e => match e with | .dispatch _ => true | _ => false)

/-- Number of upstream connection attempts (`net.Dial` calls) in a trace. -/
def countDials (es : List Event) : Nat :=
  (es.filter (fun e => match e with | .dialAttempt _ => true | _ => false)).length

/-- The addresses passed to `net.Dial` in a trace. -/
def dialAddrs : List Event → List String
  | [] => []
  | .dialAttempt a :: rest => a :: dialAddrs rest
  | _ :: rest => dialAddrs rest

/-- Total number of upstream response bytes relayed to the client. -/
def relayedBytes : List Event → Nat
  | [] => 0
  | .relay n :: rest => n + relayedBytes rest
  | _ :: rest => relayedBytes rest

/-- The `(method, target, header)` triples written to the upstream connection. -/
def upstreamWrites : List Event → List (String × String × Header)
  | [] => []
  | .writeUpstream m t h :: rest => (m, t, h) :: upstreamWrites rest
  | _ :: rest => upstreamWrites rest

/-! ### The error responder, transcribed separately from each binary -/

/-- The body `fmt.Sprintf("%d %s", code, status)` built by both copies of
`sendErrorResponse`. -/
def errBody (code : Nat) (status : String) : String :=
  toString code ++ " " ++ status

namespace HttpServer

/-- Transcription of `sendErrorResponse` from `http_server.go` (lines 189 to
199): six `fmt.Fprintf` writes to the connection.  Go `len(body)` is the
UTF-8 byte length of the body. -/
def sendErrorResponse (code : Nat) (status : String) : List Event :=
  [ .write ("HTTP/1.1 " ++ toString code ++ " " ++ status ++ "\r\n"),
    .write "Content-Type: text/plain\r\n",
    .write ("Content-Length: " ++ toString (errBody code status).utf8ByteSize ++ "\r\n"),
    .write "Connection: close\r\n",
    .write "\r\n",
    .write (errBody code status) ]

end HttpServer

namespace Proxy

/-- Transcription of `sendErrorResponse` from the proxy source file (lines 127
to 137): six `fmt.Fprintf` writes to the connection. -/
def sendErrorResponse (code : Nat) (status : String) : List Event :=
  [ .write ("HTTP/1.1 " ++ toString code ++ " " ++ status ++ "\r\n"),
    .write "Content-Type: text/plain\r\n",
    .write ("Content-Length: " ++ toString (errBody code status).utf8ByteSize ++ "\r\n"),
    .write "Connection: close\r\n",
    .write "\r\n",
    .write (errBody code status) ]

end Proxy

/-- The complete byte string of one synthesized error response, as the spec
describes it: status line, Content-Type, a Content-Length equal to the byte
length of the body, Connection close, blank line, body. -/
def errorResponseString (code : Nat) (status : String) : String :=
  "HTTP/1.1 " ++ toString code ++ " " ++ status ++ "\r\n" ++
  "Content-Type: text/plain\r\n" ++
  "Content-Length: " ++ toString (errBody code status).utf8ByteSize ++ "\r\n" ++
  "Connection: close\r\n" ++
  "\r\n" ++
  errBody code status

example : clientBytes (HttpServer.sendErrorResponse 400 "Bad Request") =
    errorResponseString 400 "Bad Request" := by
  decide

/-! ### The `path/filepath` functions used by the server (Unix rules:
the separator is the slash, there are no volume names) -/

namespace Filepath

/-- Worker for `Ext`: walks the path from its last character towards the
front, accumulating the suffix seen so far; stops with the empty string at a
separator, and returns the suffix from the first dot found. -/
def extLoop : List Char → List Char → String
  | [], _ => ""
  | c :: rest, acc =>
    if c = '/' then ""
    else if c = '.' then String.mk (c :: acc)
    else extLoop rest (c :: acc)

/-- Models `filepath.Ext`: the suffix beginning at the final dot in the final
slash-separated element, empty if there is no dot. -/
def Ext (p : String) : String := extLoop p.toList.reverse []

/-- Worker for the dotdot backtracking of `Clean`: repeatedly drops buffer
characters while the write position is above `dd` and the character just
dropped is not a separator (the buffer is reversed, `lastDropped` is the
character dropped by the previous step). -/
def btGo (dd : Nat) : List Char → Char → List Char
  | [], _ => []
  | c :: r, lastDropped =>
    if dd < (c :: r).length ∧ lastDropped ≠ '/' then btGo dd r c else c :: r

/-- The dotdot backtracking of `Clean` (`out.w--` followed by the scan back to
the previous separator), on the reversed output buffer. -/
def cleanBacktrack (dd : Nat) : List Char → List Char
  | [] => []
  | c :: r => btGo dd r c

/-- Main loop of `filepath.Clean`, transcribed from the Go source.  The first
argument is whether the path was rooted; the second is whether the loop is in
the middle of copying a real path element (the element-copying inner loop of
the Go code, flattened so that every step consumes one character); then the
unread remainder of the path, the reversed output buffer, and the `dotdot`
backtracking floor. -/
def cleanLoop (rooted : Bool) : Bool → List Char → List Char → Nat → List Char
  | _, [], out, _ => out
  | true, c :: rest, out, dd =>
    if c = '/' then cleanLoop rooted false rest out dd
    else cleanLoop rooted true rest (c :: out) dd
  | false, '/' :: rest, out, dd => cleanLoop rooted false rest out dd
  | false, ['.'], out, _ => out
  | false, '.' :: '/' :: rest, out, dd => cleanLoop rooted false rest out dd
  | false, ['.', '.'], out, dd =>
    if dd < out.length then cleanBacktrack dd out
    else if rooted then out
    else if out.length = 0 then '.' :: '.' :: out else '.' :: '.' :: '/' :: out
  | false, '.' :: '.' :: '/' :: rest, out, dd =>
    if dd < out.length then cleanLoop rooted false rest (cleanBacktrack dd out) dd
    else if rooted then cleanLoop rooted false rest out dd
    else
      let out2 := if out.length = 0 then '.' :: '.' :: out else '.' :: '.' :: '/' :: out
      cleanLoop rooted false rest out2 out2.length
  | false, c :: rest, out, dd =>
    let out2 := if (rooted ∧ out.length ≠ 1) ∨ (¬rooted ∧ out.length ≠ 0)
      then '/' :: out else out
    cleanLoop rooted true rest (c :: out2) dd

/-- Models `filepath.Clean` on Unix: shortest lexically equivalent path.
Transcribed from the Go source; the output buffer is built in reverse and
reversed at the end, and an empty result becomes a single dot. -/
def Clean (path : String) : String :=
  if path = "" then "."
  else
    let cs := path.toList
    let rooted := cs.head? = some '/'
    let out :=
      if rooted then cleanLoop true false cs.tail ['/'] 1
      else cleanLoop false false cs [] 0
    let out2 := if out.length = 0 then ['.'] else out
    String.mk out2.reverse

/-- Models `filepath.Dir`: everything up to and including the final separator,
then cleaned; a path with no separator has directory dot. -/
def Dir (path : String) : String :=
  Clean (String.mk (path.toList.reverse.dropWhile (fun c => c ≠ '/')).reverse)

example : Clean ".//" = "." := by decide
example : Clean ".//index.html" = "index.html" := by decide
example : Clean ".//a/../b" = "b" := by decide
example : Clean "" = "." := by decide
example : Clean "/../a" = "/a" := by decide
example : Clean "a/.." = "." := by decide
example : Clean "../../x" = "../../x" := by decide
example : Clean "./a/" = "a" := by decide
example : Ext "." = "." := by decide
example : Ext "index.html" = ".html" := by decide
example : Ext "a/b" = "" := by decide
example : Dir "a/b/c.txt" = "a/b" := by decide
example : Dir "c.txt" = "." := by decide

end Filepath

/-! ### Request model

`http.ReadRequest` produces a request with a parsed URL, a `Host` field, and
a canonical-key header map, or fails with an error.  The error is modelled by
whether it is the `io.EOF` sentinel plus its message string (the code only
inspects those two aspects). -/

/-- The fields of `net/url.URL` that the two binaries consult.  `path` models
the escaped path (and `opaqueData` models the `Opaque` field) (`EscapedPath`), which is what `RequestURI` emits. -/
structure URL where
  scheme : String
  opaqueData : String
  host : String
  path : String
  forceQuery : Bool
  rawQuery : String
  deriving DecidableEq

/-- Models `net/url.URL.RequestURI`, from the Go standard library source:
the opaque data or the escaped path (defaulting to the root path), followed
by the raw query when present or forced. -/
def URL.requestURI (u : URL) : String :=
  let result :=
    if u.opaqueData = "" then (if u.path = "" then "/" else u.path)
    else (if strHasPrefix u.opaqueData "//" then u.scheme ++ ":" ++ u.opaqueData else u.opaqueData)
  if u.forceQuery ∨ u.rawQuery ≠ "" then result ++ "?" ++ u.rawQuery else result

/-- The fields of `http.Request` that the two binaries consult. -/
structure Request where
  method : String
  url : URL
  host : String
  header : Header
  deriving DecidableEq

/-- Models how `http.ReadRequest` fills the `Host` field, from the Go
standard library source: the URL host, or the Host header when the URL
carries none. -/
def readRequestHostField (urlHost hostHeader : String) : String :=
  if urlHost = "" then hostHeader else urlHost

/-- A failed `http.ReadRequest`: whether the returned error is the `io.EOF`
sentinel, and the text of its message. -/
structure ParseError where
  isEOF : Bool
  msg : String
  deriving DecidableEq

/-- The guard of both parse-failure branches:
`err != io.EOF && !strings.Contains(err.Error(), "connection reset")`. -/
def sendOn400 (e : ParseError) : Bool :=
  !e.isEOF && !(strContains e.msg "connection reset")

/-! ### The server (`http_server.go`) -/

/-- The constant `maxConcurrentRequests` of `http_server.go`. -/
def maxConcurrentRequests : Nat := 10

/-- The `mimeTypes` map of `http_server.go`. -/
def mimeTypes : String → Option String
  | ".html" => some "text/html"
  | ".txt" => some "text/plain"
  | ".gif" => some "image/gif"
  | ".jpeg" => some "image/jpeg"
  | ".jpg" => some "image/jpeg"
  | ".css" => some "text/css"
  | _ => none

/-- The first lines of `handleGet`: clean `"./" + req.URL.Path`, and default
to `"./index.html"` when the cleaned path is the literal `"./"`. -/
def resolveGetPath (urlPath : String) : String :=
  let path := Filepath.Clean ("./" ++ urlPath)
  if path = "./" then "./index.html" else path

/-- Outcome of `os.Open`: success, a not-exist error (`os.IsNotExist`), or
any other error. -/
inductive OpenResult where
  | ok
  | errNotExist
  | errOther
  deriving DecidableEq

/-- Results of the file-system calls made by `handleGet`: the `os.Open`
outcome, and `file.Stat` giving the file size or an error. -/
structure GetOracle where
  openResult : OpenResult
  statResult : Except Unit Nat

namespace HttpServer

/-- Transcription of `handleGet` from `http_server.go` (lines 97 to 147) as
an event trace, with the file-system outcomes supplied by the oracle. -/
def handleGet (orc : GetOracle) (urlPath : String) : List Event :=
  let path := resolveGetPath urlPath
  let ext := Filepath.Ext path
  match mimeTypes ext with
  | none => sendErrorResponse 400 "Bad Request: Unsupported file type"
  | some contentType =>
    .openFile path ::
    match orc.openResult with
    | .errNotExist => sendErrorResponse 404 "Not Found"
    | .errOther => sendErrorResponse 500 "Internal Server Error"
    | .ok =>
      (match orc.statResult with
       | .error _ => sendErrorResponse 500 "Internal Server Error"
       | .ok fileSize =>
         [ .write "HTTP/1.1 200 OK\r\n",
           .write ("Content-Type: " ++ contentType ++ "\r\n"),
           .write ("Content-Length: " ++ toString fileSize ++ "\r\n"),
           .write "Connection: close\r\n",
           .write "\r\n",
           .copyFileToConn ]) ++ [.closeFile]

/-- Results of the file-system calls made by `handlePost`: `os.MkdirAll`,
`os.Create`, and the `io.Copy` of the request body into the file. -/
structure PostOracle where
  mkdirOk : Bool
  createOk : Bool
  copyResult : Except Unit Nat

/-- Transcription of `handlePost` from `http_server.go` (lines 149 to 186)
as an event trace. -/
def handlePost (orc : PostOracle) (urlPath : String) : List Event :=
  let path := Filepath.Clean ("./" ++ urlPath)
  .mkdirAll (Filepath.Dir path) ::
  if !orc.mkdirOk then sendErrorResponse 500 "Internal Server Error"
  else
    .createFile path ::
    if !orc.createOk then sendErrorResponse 500 "Internal Server Error"
    else
      (match orc.copyResult with
       | .error _ => sendErrorResponse 500 "Internal Server Error"
       | .ok _ =>
         [ .write "HTTP/1.1 201 Created\r\n",
           .write "Content-Type: text/plain\r\n",
           .write "Content-Length: 0\r\n",
           .write "Connection: close\r\n",
           .write "\r\n" ]) ++ [.closeFile]

/-- The oracles of both server handlers, so that one trace function covers
every exit path of `handleConnection`. -/
structure ConnOracle where
  get : GetOracle
  post : PostOracle

/-- The method switch of `handleConnection` (lines 86 to 94). -/
inductive Route where
  | get
  | post
  | notImplemented
  deriving DecidableEq

/-- Where the method switch of `handleConnection` routes a method token:
the `"GET"` case, the `"POST"` case, and the default case. -/
def serverRoute (m : String) : Route :=
  if m = "GET" then .get
  else if m = "POST" then .post
  else .notImplemented

/-- Transcription of `handleConnection` from `http_server.go` (lines 64 to
95) as an event trace, given the outcome of `http.ReadRequest`.  The two
deferred statements run last, in reverse order of registration: the
semaphore release, then the connection close. -/
def handleConnection (orc : ConnOracle) (p : Except ParseError Request) :
    List Event :=
  (match p with
   | .error e =>
     if sendOn400 e then sendErrorResponse 400 "Bad Request" else []
   | .ok req =>
     .dispatch req.method ::
     match serverRoute req.method with
     | .get => handleGet orc.get req.url.path
     | .post => handlePost orc.post req.url.path
     | .notImplemented => sendErrorResponse 501 "Not Implemented")
  ++ [.release, .closeConn]

end HttpServer

/-! ### The `net` address helpers used by the proxy -/

namespace GoNet

/-- Index of the first occurrence of a character, if any. -/
def indexOfChar (cs : List Char) (c : Char) : Option Nat :=
  cs.findIdx? (fun x => x = c)

/-- Index of the last occurrence of a character, if any (the `last` helper of
`net.SplitHostPort`). -/
def lastIndexOfChar (cs : List Char) (c : Char) : Option Nat :=
  match indexOfChar cs.reverse c with
  | none => none
  | some j => some (cs.length - 1 - j)

/-- Models `net.SplitHostPort`, from the Go standard library source.  Every
error return (missing port, missing or stray brackets, too many colons) is
collapsed to `none`; the proxy only tests the error against nil. -/
def SplitHostPort (hostport : String) : Option (String × String) :=
  let cs := hostport.toList
  match lastIndexOfChar cs ':' with
  | none => none
  | some i =>
    if cs.head? = some '[' then
      match indexOfChar cs ']' with
      | none => none
      | some e =>
        if e + 1 = cs.length then none
        else if e + 1 = i then
          if (cs.drop 1).contains '[' then none
          else if (cs.drop (e + 1)).contains ']' then none
          else some (String.mk ((cs.drop 1).take (e - 1)), String.mk (cs.drop (i + 1)))
        else none
    else
      let host := cs.take i
      if host.contains ':' then none
      else if cs.contains '[' then none
      else if cs.contains ']' then none
      else some (String.mk host, String.mk (cs.drop (i + 1)))

/-- Models `net.JoinHostPort`, from the Go standard library source: a host
containing a colon is assumed to be an IPv6 literal and is bracketed. -/
def JoinHostPort (host port : String) : String :=
  if host.toList.contains ':' then "[" ++ host ++ "]:" ++ port
  else host ++ ":" ++ port

example : SplitHostPort "example.com:80" = some ("example.com", "80") := by decide
example : SplitHostPort "example.com" = none := by decide
example : SplitHostPort "::1" = none := by decide
example : SplitHostPort "[::1]:80" = some ("::1", "80") := by decide
example : SplitHostPort "[::1]" = none := by decide
example : SplitHostPort "" = none := by decide
example : JoinHostPort "::1" "80" = "[::1]:80" := by decide
example : JoinHostPort "example.com" "80" = "example.com:80" := by decide

end GoNet

/-! ### The proxy (second source file) -/

namespace Proxy

/-- Step 1 of `forwardRequest` (lines 77 to 82): the upstream host is the URL
host, or the `Host` field when the URL carries none. -/
def resolveTargetHost (req : Request) : String :=
  let targetHost := req.url.host
  if targetHost = "" then req.host else targetHost

/-- Step 2 of `forwardRequest` (lines 88 to 92): when `net.SplitHostPort`
fails, default the port by joining with port 80; otherwise dial the host
string unchanged. -/
def dialAddr (targetHost : String) : String :=
  if (GoNet.SplitHostPort targetHost).isSome then targetHost
  else GoNet.JoinHostPort targetHost "80"

/-- Results of the proxy upstream I/O: whether `net.Dial` succeeds, whether
`req.Write(remoteConn)` succeeds, and how many bytes the final `io.Copy`
relays from the upstream to the client. -/
structure ProxyOracle where
  dialOk : Bool
  writeOk : Bool
  relayBytes : Nat

/-- Transcription of `forwardRequest` from the proxy source file (lines 76
to 124) as an event trace.  The written upstream request is modelled as the
`(method, request-line target, header map)` triple that `req.Write` emits:
per the Go standard library, the request-line target of a non-proxy write is
`req.URL.RequestURI()` (the `req.RequestURI` field assigned at line 105 is
ignored by `Request.Write`), and the header map is the request header after
the `Proxy-Connection` deletion and the `Connection: close` override. -/
def forwardRequest (orc : ProxyOracle) (req : Request) : List Event :=
  let targetHost := resolveTargetHost req
  if targetHost = "" then
    sendErrorResponse 400 "Bad Request: Missing host in request"
  else
    .dialAttempt (dialAddr targetHost) ::
    if !orc.dialOk then
      sendErrorResponse 502 "Bad Gateway: Could not connect to host"
    else
      let hdr := headerSet (headerDel req.header "Proxy-Connection") "Connection" "close"
      (.writeUpstream req.method req.url.requestURI hdr ::
       if !orc.writeOk then
         sendErrorResponse 502 "Bad Gateway: Error writing to remote"
       else
         [.relay orc.relayBytes])
      ++ [.closeUpstream]

/-- Transcription of `handleProxyRequest` from the proxy source file (lines
47 to 74) as an event trace, given the outcome of `http.ReadRequest`.  The
single deferred statement closes the client connection last. -/
def handleProxyRequest (orc : ProxyOracle) (p : Except ParseError Request) :
    List Event :=
  (match p with
   | .error e =>
     if sendOn400 e then sendErrorResponse 400 "Bad Request" else []
   | .ok req =>
     .dispatch req.method ::
     if req.method ≠ "GET" then sendErrorResponse 501 "Not Implemented"
     else forwardRequest orc req)
  ++ [.closeConn]

end Proxy

/-! ### The server accept loop and its counting semaphore

The accept loop of `http_server.go` sends one unit into the buffered channel
`sem` (capacity `maxConcurrentRequests`) before spawning a handler goroutine;
a send blocks while the buffer is full, so an accept step is only enabled
while fewer than ten units are buffered.  Each handler goroutine is modelled
by the remaining suffix of its event trace, and its deferred `<-sem` receive
is the `release` event in the trace.  The step relation interleaves the
accept loop with one step of any goroutine. -/

/-- The sent-but-not-received units in the semaphore channel, and the active
handler goroutines, each as the remaining suffix of its event trace. -/
structure ServerState where
  sem : Nat
  units : List (List Event)
  deriving DecidableEq

/-- One interleaved step of the accept loop or of one handler goroutine. -/
inductive ServerStep : ServerState → ServerState → Prop where
  | acceptErr (s : ServerState) :
      ServerStep s s
  | accept (s : ServerState) (orc : HttpServer.ConnOracle)
      (p : Except ParseError Request) :
      s.sem < maxConcurrentRequests →
      ServerStep s ⟨s.sem + 1, HttpServer.handleConnection orc p :: s.units⟩
  | unitStep (s : ServerState) (pre post : List (List Event)) (e : Event)
      (rest : List Event) :
      s.units = pre ++ (e :: rest) :: post →
      ServerStep s ⟨if isRelease e then s.sem - 1 else s.sem, pre ++ rest :: post⟩
  | unitDone (s : ServerState) (pre post : List (List Event)) :
      s.units = pre ++ [] :: post →
      ServerStep s ⟨s.sem, pre ++ post⟩

/-- States reachable from the initial state (empty semaphore, no handlers). -/
inductive Reachable : ServerState → Prop where
  | init : Reachable ⟨0, []⟩
  | step {s t : ServerState} : Reachable s → ServerStep s t → Reachable t

/-- Total number of pending semaphore releases across all handlers. -/
def slotsHeld (s : ServerState) : Nat := (s.units.map countRelease).sum

/-- Handlers that have passed the semaphore gate and not yet released their
slot, that is, whose handling is not yet finished. -/
def activeHolders (s : ServerState) : Nat :=
  (s.units.filter (fun u => countRelease u != 0)).length

/-- The semaphore invariant: the channel holds one unit per pending release,
and never more than the channel capacity. -/
def semInv (s : ServerState) : Prop :=
  s.sem = slotsHeld s ∧ s.sem ≤ maxConcurrentRequests

theorem countRelease_cons (e : Event) (l : List Event) :
    countRelease (e :: l) = (if isRelease e then 1 else 0) + countRelease l := by
  simp only [countRelease, List.filter_cons]
  split <;> simp [Nat.add_comm]

theorem countRelease_append (a b : List Event) :
    countRelease (a ++ b) = countRelease a + countRelease b := by
  simp [countRelease, List.filter_append]

theorem countRelease_sendErrorResponse (code : Nat) (status : String) :
    countRelease (HttpServer.sendErrorResponse code status) = 0 := rfl

theorem countRelease_proxySendErrorResponse (code : Nat) (status : String) :
    countRelease (Proxy.sendErrorResponse code status) = 0 := rfl

theorem countRelease_nil : countRelease [] = 0 := rfl

theorem countRelease_handleGet (orc : GetOracle) (up : String) :
    countRelease (HttpServer.handleGet orc up) = 0 := by
  obtain ⟨op, st⟩ := orc
  unfold HttpServer.handleGet
  cases hm : mimeTypes (Filepath.Ext (resolveGetPath up)) <;>
    simp only [hm] <;> cases op <;> cases st <;> rfl

theorem countRelease_handlePost (orc : HttpServer.PostOracle) (up : String) :
    countRelease (HttpServer.handlePost orc up) = 0 := by
  obtain ⟨mk, cr, cp⟩ := orc
  cases mk <;> cases cr <;> cases cp <;> rfl

/-- Every exit path of the server connection handler (benign parse failure,
malformed parse failure, GET, POST, 501 dispatch, and every file-system
error inside the handlers) releases the semaphore slot exactly once. -/
theorem countRelease_handleConnection (orc : HttpServer.ConnOracle)
    (p : Except ParseError Request) :
    countRelease (HttpServer.handleConnection orc p) = 1 := by
  unfold HttpServer.handleConnection
  cases p with
  | error e =>
    cases hs : sendOn400 e <;> simp only [hs] <;> rfl
  | ok req =>
    cases hr : HttpServer.serverRoute req.method <;>
      simp [hr, countRelease_append, countRelease_cons, countRelease_nil,
        countRelease_sendErrorResponse, countRelease_handleGet,
        countRelease_handlePost, isRelease]

theorem holders_le_sum (l : List (List Event)) :
    (l.filter (fun u => countRelease u != 0)).length ≤ (l.map countRelease).sum := by
  induction l with
  | nil => simp
  | cons u rest ih =>
    by_cases h : countRelease u = 0 <;>
      simp [List.filter_cons, h] <;> omega

theorem reachable_semInv {s : ServerState} (h : Reachable s) : semInv s := by
  induction h with
  | init => exact ⟨rfl, by simp [maxConcurrentRequests]⟩
  | step _ hstep ih =>
    obtain ⟨h1, h2⟩ := ih
    simp only [slotsHeld] at h1
    cases hstep with
    | acceptErr => exact ⟨h1, h2⟩
    | accept orc p hlt =>
      refine ⟨?_, hlt⟩
      simp only [slotsHeld, List.map_cons, List.sum_cons,
        countRelease_handleConnection]
      omega
    | unitStep pre post e rest hu =>
      rw [hu] at h1
      simp only [List.map_append, List.map_cons, List.sum_append,
        List.sum_cons, countRelease_cons] at h1
      constructor
      · simp only [slotsHeld, List.map_append, List.map_cons,
          List.sum_append, List.sum_cons]
        cases he : isRelease e <;> simp [he] at h1 ⊢ <;> omega
      · cases he : isRelease e <;> simp [he] at h1 ⊢ <;> omega
    | unitDone pre post hu =>
      rw [hu] at h1
      simp only [List.map_append, List.map_cons, List.sum_append,
        List.sum_cons, countRelease_nil] at h1
      refine ⟨?_, h2⟩
      simp only [slotsHeld, List.map_append, List.sum_append]
      omega

/-! ### Helper lemmas on traces and headers -/

theorem clientBytes_append (a b : List Event) :
    clientBytes (a ++ b) = clientBytes a ++ clientBytes b := by
  induction a with
  | nil => simp [clientBytes, String.empty_append]
  | cons e rest ih =>
    cases e <;> simp [clientBytes, ih, String.append_assoc]

theorem clientBytes_server_sendError (code : Nat) (status : String) :
    clientBytes (HttpServer.sendErrorResponse code status) =
      errorResponseString code status := by
  simp only [HttpServer.sendErrorResponse, clientBytes, errorResponseString,
    String.append_assoc, String.append_empty]

theorem clientBytes_proxy_sendError (code : Nat) (status : String) :
    clientBytes (Proxy.sendErrorResponse code status) =
      errorResponseString code status := by
  simp only [Proxy.sendErrorResponse, clientBytes, errorResponseString,
    String.append_assoc, String.append_empty]

theorem headerGet_cons (kv : String × List String) (h : Header) (k : String) :
    headerGet (kv :: h) k = if kv.1 = k then some kv.2 else headerGet h k := by
  by_cases hk : kv.1 = k <;> simp [headerGet, List.find?_cons, hk]

theorem headerGet_headerDel (h : Header) (k : String) :
    headerGet (headerDel h k) k = none := by
  induction h with
  | nil => rfl
  | cons kv rest ih =>
    by_cases hk : kv.1 = k <;>
      simp only [headerDel, List.filter_cons] at ih ⊢ <;>
      simp [hk, headerGet_cons] <;>
      simpa [headerDel] using ih

theorem headerGet_headerDel_of_none (h : Header) (k k2 : String)
    (hn : headerGet h k = none) : headerGet (headerDel h k2) k = none := by
  induction h with
  | nil => rfl
  | cons kv rest ih =>
    rw [headerGet_cons] at hn
    by_cases hk : kv.1 = k
    · simp [hk] at hn
    · by_cases hk2 : kv.1 = k2 <;>
        simp only [headerDel, List.filter_cons] at ih ⊢ <;>
        simp [hk, hk2, headerGet_cons] <;>
        simpa [headerDel] using ih (by simpa [hk] using hn)

theorem headerGet_headerSet_self (h : Header) (k v : String) :
    headerGet (headerSet h k v) k = some [v] := by
  simp [headerSet, headerGet_cons]

theorem headerGet_headerSet_ne (h : Header) (k k2 v : String) (hne : k2 ≠ k) :
    headerGet (headerSet h k2 v) k = headerGet (headerDel h k2) k := by
  simp [headerSet, headerGet_cons, hne]

theorem clientBytes_cons_dispatch (m : String) (l : List Event) :
    clientBytes (.dispatch m :: l) = clientBytes l := rfl

theorem clientBytes_release_close :
    clientBytes [Event.release, Event.closeConn] = "" := rfl

theorem clientBytes_close_only :
    clientBytes [Event.closeConn] = "" := rfl

/-! ### The claims -/

/-- The benign class of parse failures as the spec describes it: the stream
ended with no data (the `io.EOF` sentinel), or the peer reset the connection
(an error whose message carries the "connection reset" text). -/
def benignParseError (e : ParseError) : Bool :=
  e.isEOF || strContains e.msg "connection reset"

theorem sendOn400_eq_not_benign (e : ParseError) :
    sendOn400 e = !benignParseError e := by
  simp [sendOn400, benignParseError]

/-- An oracle for the server handlers in which every file-system call
succeeds. -/
def orcOk : HttpServer.ConnOracle :=
  ⟨⟨.ok, .ok 7⟩, ⟨true, true, .ok 7⟩⟩

/-- C1: at every reachable state of the accept/handle step relation, the
number of connections that have passed the semaphore gate and whose handling
has not yet finished (their slot release is still pending) is at most 10,
and every handling-unit trace contains exactly one semaphore release,
whatever the parse outcome and whatever the handler I/O results. -/
theorem C1_semaphore_bound_and_single_release (s : ServerState)
    (h : Reachable s) :
    activeHolders s ≤ maxConcurrentRequests ∧
    ∀ (orc : HttpServer.ConnOracle) (p : Except ParseError Request),
      countRelease (HttpServer.handleConnection orc p) = 1 := by
  obtain ⟨h1, h2⟩ := reachable_semInv h
  refine ⟨?_, fun orc p => countRelease_handleConnection orc p⟩
  have h3 := holders_le_sum s.units
  simp only [activeHolders, slotsHeld] at *
  omega

/-- Witness for C1: the theorem applied at the initial state, with the
release-count conjunct instantiated at a benign parse failure. -/
theorem C1_witness :
    activeHolders ⟨0, []⟩ ≤ maxConcurrentRequests ∧
    countRelease (HttpServer.handleConnection orcOk (.error ⟨true, ""⟩)) = 1 :=
  ⟨(C1_semaphore_bound_and_single_release ⟨0, []⟩ Reachable.init).1,
   (C1_semaphore_bound_and_single_release ⟨0, []⟩ Reachable.init).2 orcOk
     (.error ⟨true, ""⟩)⟩

/-- C2: on a parse failure classified benign (EOF with no data, or peer
reset), neither binary writes any bytes to the client; on any other parse
failure, each binary writes exactly one 400 Bad Request response; in both
cases the request never reaches the method dispatcher. -/
theorem C2_parse_failure_classification (e : ParseError)
    (orc : HttpServer.ConnOracle) (porc : Proxy.ProxyOracle) :
    (benignParseError e = true →
      clientBytes (HttpServer.handleConnection orc (.error e)) = "" ∧
      clientBytes (Proxy.handleProxyRequest porc (.error e)) = "") ∧
    (benignParseError e = false →
      clientBytes (HttpServer.handleConnection orc (.error e)) =
        errorResponseString 400 "Bad Request" ∧
      clientBytes (Proxy.handleProxyRequest porc (.error e)) =
        errorResponseString 400 "Bad Request") ∧
    hasDispatch (HttpServer.handleConnection orc (.error e)) = false ∧
    hasDispatch (Proxy.handleProxyRequest porc (.error e)) = false := by
  have hs := sendOn400_eq_not_benign e
  refine ⟨fun hb => ?_, fun hb => ?_, ?_, ?_⟩
  · rw [hb] at hs
    simp only [HttpServer.handleConnection, Proxy.handleProxyRequest, hs,
      Bool.not_true, if_false, List.nil_append]
    exact ⟨rfl, rfl⟩
  · rw [hb] at hs
    simp only [HttpServer.handleConnection, Proxy.handleProxyRequest, hs,
      Bool.not_false, if_true, clientBytes_append]
    constructor
    · rw [clientBytes_server_sendError]
      simp only [clientBytes, String.append_empty]
    · rw [clientBytes_proxy_sendError]
      simp only [clientBytes, String.append_empty]
  · cases hb : sendOn400 e <;>
      simp [HttpServer.handleConnection, hb, hasDispatch,
        HttpServer.sendErrorResponse]
  · cases hb : sendOn400 e <;>
      simp [Proxy.handleProxyRequest, hb, hasDispatch,
        Proxy.sendErrorResponse]

/-- Witness for C2: a benign EOF failure writes nothing, and a malformed
request line writes exactly the 400 response, on both binaries. -/
theorem C2_witness :
    clientBytes (HttpServer.handleConnection orcOk
      (.error ⟨true, "EOF"⟩)) = "" ∧
    clientBytes (Proxy.handleProxyRequest ⟨true, true, 0⟩
      (.error ⟨false, "malformed HTTP request"⟩)) =
      errorResponseString 400 "Bad Request" :=
  ⟨((C2_parse_failure_classification ⟨true, "EOF"⟩ orcOk
      ⟨true, true, 0⟩).1 (by decide)).1,
   ((C2_parse_failure_classification ⟨false, "malformed HTTP request"⟩ orcOk
      ⟨true, true, 0⟩).2.1 (by decide)).2⟩

/-- A GET request with an absolute-form target carrying a query, and a
Proxy-Connection header, as a client talking to the proxy would send it. -/
def reqGetAbs : Request :=
  { method := "GET",
    url := { scheme := "http", opaqueData := "", host := "example.test",
             path := "/docs", forceQuery := false, rawQuery := "q=1" },
    host := "example.test",
    header := [("Proxy-Connection", ["keep-alive"]), ("Accept", ["x"])] }

/-- A GET request with an origin-form target and an empty Host header. -/
def reqNoHost : Request :=
  { method := "GET",
    url := { scheme := "", opaqueData := "", host := "", path := "/docs",
             forceQuery := false, rawQuery := "" },
    host := "",
    header := [] }

/-- The request parsed from `GET http://example.test HTTP/1.1`: an
absolute-form target whose URL has a host but an empty path. -/
def reqGetEmptyPath : Request :=
  { method := "GET",
    url := { scheme := "http", opaqueData := "", host := "example.test",
             path := "", forceQuery := false, rawQuery := "" },
    host := "example.test",
    header := [] }

theorem requestURI_of_no_opaque (u : URL) (hop : u.opaqueData = "") :
    URL.requestURI u = (if u.path = "" then "/" else u.path) ++
      (if u.forceQuery ∨ u.rawQuery ≠ "" then "?" ++ u.rawQuery else "") := by
  by_cases hq : u.forceQuery ∨ u.rawQuery ≠ "" <;>
    simp [URL.requestURI, hop, hq, String.append_assoc, String.append_empty]

/-- Counterexample to C3 as stated: the absolute-form request
`GET http://example.test HTTP/1.1` has an empty URL path; the proxy
forwards it, and the upstream request line written carries the target
`"/"`, which is not the path plus the query (the empty string). -/
theorem C3_counterexample :
    upstreamWrites (Proxy.forwardRequest ⟨true, true, 0⟩ reqGetEmptyPath) =
      [("GET", "/", [("Connection", ["close"])])] ∧
    "/" ≠ reqGetEmptyPath.url.path ++
      (if reqGetEmptyPath.url.forceQuery ∨ reqGetEmptyPath.url.rawQuery ≠ ""
        then "?" ++ reqGetEmptyPath.url.rawQuery else "") := by
  decide

/-- C3 (amended): every request line the proxy writes upstream has the
target `URL.RequestURI()`: when the URL has no opaque part this is the path
(defaulting to "/" when the path is empty) followed by the query, with no
scheme and no host; a rootless opaque target is forwarded as the opaque
string.  In all cases the outgoing headers carry no Proxy-Connection field
and the outgoing Connection header is exactly "close". -/
theorem C3_upstream_rewrite_amended (orc : Proxy.ProxyOracle)
    (req : Request) :
    ∀ m t h, (m, t, h) ∈ upstreamWrites (Proxy.forwardRequest orc req) →
      t = URL.requestURI req.url ∧
      (req.url.opaqueData = "" →
        t = (if req.url.path = "" then "/" else req.url.path) ++
          (if req.url.forceQuery ∨ req.url.rawQuery ≠ "" then
            "?" ++ req.url.rawQuery else "")) ∧
      headerGet h "Proxy-Connection" = none ∧
      headerGet h "Connection" = some ["close"] := by
  intro m t h hmem
  simp only [Proxy.forwardRequest] at hmem
  by_cases h0 : Proxy.resolveTargetHost req = ""
  · rw [if_pos h0] at hmem
    simp [Proxy.sendErrorResponse, upstreamWrites] at hmem
  · rw [if_neg h0] at hmem
    cases hd : orc.dialOk
    · simp [hd, Proxy.sendErrorResponse, upstreamWrites] at hmem
    · rw [hd] at hmem
      cases hw : orc.writeOk <;> rw [hw] at hmem <;>
        simp [Proxy.sendErrorResponse, upstreamWrites] at hmem
      all_goals obtain ⟨hm, ht, hh⟩ := hmem
      all_goals subst ht; subst hh
      all_goals refine ⟨rfl, fun hop => requestURI_of_no_opaque req.url hop,
        ?_, ?_⟩
      all_goals first
        | (rw [headerGet_headerSet_ne _ _ _ _ (by decide)]
           exact headerGet_headerDel_of_none _ _ _
             (headerGet_headerDel req.header "Proxy-Connection"))
        | exact headerGet_headerSet_self _ _ _

/-- Witness for the amended C3: the concrete request `reqGetAbs` is
forwarded with target `"/docs?q=1"` and the rewritten header map. -/
theorem C3_witness :
    "/docs?q=1" = URL.requestURI reqGetAbs.url ∧
    "/docs?q=1" =
      (if reqGetAbs.url.path = "" then "/" else reqGetAbs.url.path) ++
      (if reqGetAbs.url.forceQuery ∨ reqGetAbs.url.rawQuery ≠ "" then
        "?" ++ reqGetAbs.url.rawQuery else "") ∧
    headerGet [("Connection", ["close"]), ("Accept", ["x"])]
      "Proxy-Connection" = none ∧
    headerGet [("Connection", ["close"]), ("Accept", ["x"])]
      "Connection" = some ["close"] :=
  have h := C3_upstream_rewrite_amended ⟨true, true, 5⟩ reqGetAbs
    "GET" "/docs?q=1" [("Connection", ["close"]), ("Accept", ["x"])]
    (by decide)
  ⟨h.1, h.2.1 rfl, h.2.2.1, h.2.2.2⟩

/-- C4: the upstream target is the URL host when the target is an absolute
URL; otherwise it is the Host header value (which `http.ReadRequest` placed
in the Host field); when both are empty, the client receives the 400
response and no upstream dial is attempted. -/
theorem C4_target_resolution (orc : Proxy.ProxyOracle) (req : Request)
    (hostHeader : String)
    (hh : req.host = readRequestHostField req.url.host hostHeader) :
    (req.url.host ≠ "" → Proxy.resolveTargetHost req = req.url.host) ∧
    (req.url.host = "" → Proxy.resolveTargetHost req = hostHeader) ∧
    (Proxy.resolveTargetHost req = "" →
      clientBytes (Proxy.forwardRequest orc req) =
        errorResponseString 400 "Bad Request: Missing host in request" ∧
      countDials (Proxy.forwardRequest orc req) = 0) := by
  refine ⟨fun hne => ?_, fun he => ?_, fun hz => ?_⟩
  · simp [Proxy.resolveTargetHost, hne]
  · simp [Proxy.resolveTargetHost, he, hh, readRequestHostField]
  · simp only [Proxy.forwardRequest]
    rw [if_pos hz]
    exact ⟨clientBytes_proxy_sendError 400 _, rfl⟩

/-- Witness for C4: the origin-form request with empty Host header gets the
400 response and no dial. -/
theorem C4_witness :
    Proxy.resolveTargetHost reqNoHost = "" ∧
    clientBytes (Proxy.forwardRequest ⟨true, true, 0⟩ reqNoHost) =
      errorResponseString 400 "Bad Request: Missing host in request" ∧
    countDials (Proxy.forwardRequest ⟨true, true, 0⟩ reqNoHost) = 0 :=
  ⟨(C4_target_resolution ⟨true, true, 0⟩ reqNoHost "" rfl).2.1 rfl,
   ((C4_target_resolution ⟨true, true, 0⟩ reqNoHost "" rfl).2.2 rfl).1,
   ((C4_target_resolution ⟨true, true, 0⟩ reqNoHost "" rfl).2.2 rfl).2⟩

/-- C5: when the upstream dial fails, the client receives exactly the 502
response, exactly one dial is attempted, and no upstream bytes are relayed. -/
theorem C5_dial_failure (orc : Proxy.ProxyOracle) (req : Request)
    (hdial : orc.dialOk = false) (hhost : Proxy.resolveTargetHost req ≠ "") :
    clientBytes (Proxy.forwardRequest orc req) =
      errorResponseString 502 "Bad Gateway: Could not connect to host" ∧
    countDials (Proxy.forwardRequest orc req) = 1 ∧
    relayedBytes (Proxy.forwardRequest orc req) = 0 := by
  simp only [Proxy.forwardRequest]
  rw [if_neg hhost]
  simp only [hdial, Bool.not_false, if_true]
  refine ⟨?_, rfl, rfl⟩
  simpa only [clientBytes] using clientBytes_proxy_sendError 502
    "Bad Gateway: Could not connect to host"

/-- Witness for C5: the absolute-form request to an unreachable
`example.test` upstream. -/
theorem C5_witness :
    clientBytes (Proxy.forwardRequest ⟨false, true, 0⟩ reqGetAbs) =
      errorResponseString 502 "Bad Gateway: Could not connect to host" ∧
    countDials (Proxy.forwardRequest ⟨false, true, 0⟩ reqGetAbs) = 1 ∧
    relayedBytes (Proxy.forwardRequest ⟨false, true, 0⟩ reqGetAbs) = 0 :=
  C5_dial_failure ⟨false, true, 0⟩ reqGetAbs rfl (by decide)

/-- C6: a resolved host on which `net.SplitHostPort` succeeds (it carries an
explicit port) is dialed unchanged; one on which the split fails (no
explicit port) is dialed joined with port 80; and an IPv6 literal without a
port is joined with brackets, `"::1"` becoming `"[::1]:80"`. -/
theorem C6_port_defaulting (host : String) :
    ((GoNet.SplitHostPort host).isSome = true → Proxy.dialAddr host = host) ∧
    ((GoNet.SplitHostPort host).isSome = false →
      Proxy.dialAddr host = GoNet.JoinHostPort host "80") ∧
    GoNet.SplitHostPort "::1" = none ∧
    Proxy.dialAddr "::1" = "[::1]:80" ∧
    Proxy.dialAddr "example.com" = "example.com:80" ∧
    Proxy.dialAddr "example.com:8080" = "example.com:8080" := by
  refine ⟨fun hs => ?_, fun hs => ?_, by decide, by decide, by decide,
    by decide⟩
  · simp [Proxy.dialAddr, hs]
  · simp [Proxy.dialAddr, hs]

/-- Witness for C6: a host with an explicit port is dialed unchanged, and
the bracketless IPv6 loopback literal is bracketed and given port 80. -/
theorem C6_witness :
    Proxy.dialAddr "example.com:8080" = "example.com:8080" ∧
    Proxy.dialAddr "::1" = "[::1]:80" :=
  ⟨(C6_port_defaulting "example.com:8080").1 (by decide),
   (C6_port_defaulting "::1").2.2.2.1⟩

/-- A request with an unsupported method token. -/
def reqDelete : Request :=
  { method := "DELETE",
    url := { scheme := "", opaqueData := "", host := "", path := "/f.html",
             forceQuery := false, rawQuery := "" },
    host := "h",
    header := [] }

/-- A POST request, as the proxy might receive it. -/
def reqPost : Request :=
  { method := "POST",
    url := { scheme := "", opaqueData := "", host := "", path := "/f.txt",
             forceQuery := false, rawQuery := "" },
    host := "h",
    header := [] }

/-- C7: method dispatch is total.  The server routes GET to the file
handler and POST to the file-store handler and answers 501 for any other
token; the proxy routes GET to the forwarder and answers 501 for every
other method, POST included. -/
theorem C7_dispatch_total (req : Request) (orc : HttpServer.ConnOracle)
    (porc : Proxy.ProxyOracle) :
    (req.method = "GET" →
      HttpServer.handleConnection orc (.ok req) =
        .dispatch "GET" ::
          (HttpServer.handleGet orc.get req.url.path ++
            [.release, .closeConn])) ∧
    (req.method = "POST" →
      HttpServer.handleConnection orc (.ok req) =
        .dispatch "POST" ::
          (HttpServer.handlePost orc.post req.url.path ++
            [.release, .closeConn])) ∧
    (req.method ≠ "GET" → req.method ≠ "POST" →
      clientBytes (HttpServer.handleConnection orc (.ok req)) =
        errorResponseString 501 "Not Implemented") ∧
    (req.method = "GET" →
      Proxy.handleProxyRequest porc (.ok req) =
        .dispatch "GET" :: (Proxy.forwardRequest porc req ++ [.closeConn])) ∧
    (req.method ≠ "GET" →
      clientBytes (Proxy.handleProxyRequest porc (.ok req)) =
        errorResponseString 501 "Not Implemented") := by
  refine ⟨fun hg => ?_, fun hp => ?_, fun hg hp => ?_, fun hg => ?_,
    fun hg => ?_⟩
  · simp [HttpServer.handleConnection, HttpServer.serverRoute, hg]
  · simp [HttpServer.handleConnection, HttpServer.serverRoute, hp]
  · rw [show HttpServer.handleConnection orc (.ok req) =
      (.dispatch req.method ::
        HttpServer.sendErrorResponse 501 "Not Implemented") ++
        [.release, .closeConn] from by
      simp [HttpServer.handleConnection, HttpServer.serverRoute, hg, hp]]
    rw [clientBytes_append, clientBytes_cons_dispatch,
      clientBytes_server_sendError, clientBytes_release_close]
    exact String.append_empty _
  · simp [Proxy.handleProxyRequest, hg]
  · rw [show Proxy.handleProxyRequest porc (.ok req) =
      (.dispatch req.method ::
        Proxy.sendErrorResponse 501 "Not Implemented") ++ [.closeConn] from by
      simp [Proxy.handleProxyRequest, hg]]
    rw [clientBytes_append, clientBytes_cons_dispatch,
      clientBytes_proxy_sendError, clientBytes_close_only]
    exact String.append_empty _

/-- Witness for C7: DELETE on the server and POST on the proxy both get the
501 response. -/
theorem C7_witness :
    clientBytes (HttpServer.handleConnection orcOk (.ok reqDelete)) =
      errorResponseString 501 "Not Implemented" ∧
    clientBytes (Proxy.handleProxyRequest ⟨true, true, 0⟩ (.ok reqPost)) =
      errorResponseString 501 "Not Implemented" :=
  ⟨(C7_dispatch_total reqDelete orcOk ⟨true, true, 0⟩).2.2.1
      (by decide) (by decide),
   (C7_dispatch_total reqPost orcOk ⟨true, true, 0⟩).2.2.2.2 (by decide)⟩

/-- C8: the error responder writes the status line, a text/plain
Content-Type, a Content-Length equal to the exact byte length of the body,
a Connection close header, a blank line, and a body consisting of the
decimal code, a space, and the reason string. -/
theorem C8_error_responder_format (code : Nat) (status : String) :
    clientBytes (HttpServer.sendErrorResponse code status) =
      "HTTP/1.1 " ++ toString code ++ " " ++ status ++ "\r\n" ++
      "Content-Type: text/plain\r\n" ++
      "Content-Length: " ++
        toString (errBody code status).utf8ByteSize ++ "\r\n" ++
      "Connection: close\r\n" ++
      "\r\n" ++
      errBody code status ∧
    errBody code status = toString code ++ " " ++ status :=
  ⟨clientBytes_server_sendError code status, rfl⟩

/-- C9: contrary to the claim, a GET whose URL path is the root path does
not resolve to `index.html`: `filepath.Clean("./" + "/")` is `"."`, never
the literal `"./"` the code compares against, so the index.html default is
dead code, the resolved path is `"."`, its extension `"."` is unsupported,
and the client receives the 400 response instead of the index page. -/
theorem C9_root_path_resolution :
    resolveGetPath "/" = "." ∧
    Filepath.Ext "." = "." ∧
    mimeTypes "." = none ∧
    clientBytes (HttpServer.handleGet ⟨.ok, .ok 7⟩ "/") =
      errorResponseString 400 "Bad Request: Unsupported file type" :=
  ⟨by decide, by decide, rfl, by decide⟩

/-- C10: the two transcriptions of `sendErrorResponse` are extensionally
equal: the same event lists and therefore byte-identical client output for
every status code and reason string. -/
theorem C10_error_responder_equal (code : Nat) (status : String) :
    HttpServer.sendErrorResponse code status =
      Proxy.sendErrorResponse code status ∧
    clientBytes (HttpServer.sendErrorResponse code status) =
      clientBytes (Proxy.sendErrorResponse code status) :=
  ⟨rfl, rfl⟩

end WebServer
